import Mathlib

/-!
Shallow embedding of the car racing game's vehicle state machine and force
model, translated from `src/client/src/lib/car.ts` and
`src/client/src/lib/physics.ts` (the speed-limited `PhysicsWorld` variant).
JavaScript numbers are modelled as rationals; all arithmetic in the embedded
code paths is exact on the values that occur.  Euclidean-distance comparisons
`dist < r` from the source are embedded as `distSq < r * r`, which is
equivalent since both sides are nonnegative.
-/

namespace VibeRacing

/-- A 3-component vector (THREE.Vector3 / CANNON.Vec3), components as ℚ. -/
structure Vec3 where
  x : ℚ
  y : ℚ
  z : ℚ
deriving DecidableEq, Repr

def Vec3.zero : Vec3 := ⟨0, 0, 0⟩

/-- Squared Euclidean distance; the source compares `a.distanceTo b < r`,
which for `r ≥ 0` is equivalent to `distSq a b < r * r`. -/
def distSq (a b : Vec3) : ℚ :=
  (a.x - b.x) * (a.x - b.x) + (a.y - b.y) * (a.y - b.y) + (a.z - b.z) * (a.z - b.z)

/-- `RaceStatus` interface from car.ts. -/
structure RaceStatus where
  raceStarted : Bool
  raceFinished : Bool
  raceTime : ℚ
deriving DecidableEq, Repr

/-- Collision severity tags `'minor' | 'wall' | 'headOn'`. -/
inductive CollisionType where
  | minor
  | wall
  | headOn
deriving DecidableEq, Repr

/-- Control input tuple `{forward, backward, left, right, nitro}`. -/
structure Input where
  forward : Bool
  backward : Bool
  left : Bool
  right : Bool
  nitro : Bool
deriving DecidableEq, Repr

/-- The force triple passed to `physics.applyCarForces`. -/
structure Forces where
  acceleration : ℚ
  braking : ℚ
  steering : ℚ
deriving DecidableEq, Repr

/-- State of one `Car` instance (car.ts fields), together with the fields of
its CANNON body and THREE mesh that the embedded methods read or write. -/
structure CarState where
  health : ℚ
  isDisabled : Bool
  disableTimer : ℚ
  acceleration : ℚ
  braking : ℚ
  steering : ℚ
  nitroActive : Bool
  nitroTimeLeft : ℚ
  crashed : Bool
  raceStatus : RaceStatus
  raceStartTime : ℚ
  raceFinishTime : ℚ
  startPosition : Vec3
  finishPosition : Vec3
  isInitializing : Bool
  isAutoDriving : Bool
  autoDriveStartTime : ℚ
  bodyPosition : Vec3
  bodyVelocity : Vec3
  bodyAngularVelocity : Vec3
  meshPosition : Vec3
deriving DecidableEq, Repr

namespace Car

def DISABLE_DURATION : ℚ := 3000
def MINOR_BUMP_DAMAGE : ℚ := 5
def WALL_CRASH_DAMAGE : ℚ := 10
def HEAD_ON_CRASH_DAMAGE : ℚ := 20
def NITRO_MULTIPLIER : ℚ := 13 / 10
def NITRO_DURATION : ℚ := 5000
def AUTO_DRIVE_DURATION : ℚ := 5000
def ACCELERATION_FORCE : ℚ := 20000
def BRAKING_FORCE : ℚ := 15000
def STEERING_FORCE : ℚ := 100
def CHECKPOINT_RADIUS : ℚ := 10
def INIT_SAFE_PERIOD : ℚ := 2000

/-- The `Car` constructor: field defaults plus the constructor body.
The body is created at the given position with zero velocity; the mesh is
placed at the same position.  (`window.setTimeout` arms the 2000 ms grace
timer; its expiry is the `Event.initEnd` step below.) -/
def mkCar (position startPosition finishPosition : Vec3) : CarState where
  health := 100
  isDisabled := false
  disableTimer := 0
  acceleration := 0
  braking := 0
  steering := 0
  nitroActive := false
  nitroTimeLeft := 0
  crashed := false
  raceStatus := ⟨false, false, 0⟩
  raceStartTime := 0
  raceFinishTime := 0
  startPosition := startPosition
  finishPosition := finishPosition
  isInitializing := true
  isAutoDriving := false
  autoDriveStartTime := 0
  bodyPosition := position
  bodyVelocity := Vec3.zero
  bodyAngularVelocity := Vec3.zero
  meshPosition := position

/-- `Car.startRace` (`now` is `Date.now()` in ms). -/
def startRace (now : ℚ) (s : CarState) : CarState :=
  if s.raceStatus.raceStarted then s
  else { s with
    raceStatus := { s.raceStatus with raceStarted := true }
    raceStartTime := now }

/-- `Car.finishRace`. -/
def finishRace (now : ℚ) (s : CarState) : CarState :=
  if s.raceStatus.raceFinished then s
  else { s with
    raceFinishTime := now
    raceStatus := { s.raceStatus with
      raceFinished := true
      raceTime := (now - s.raceStartTime) / 1000 }
    bodyVelocity := Vec3.zero
    bodyAngularVelocity := Vec3.zero }

/-- `Car.resetRace`. -/
def resetRace (s : CarState) : CarState :=
  { s with raceStatus := ⟨false, false, 0⟩ }

/-- `Car.activateNitro`. -/
def activateNitro (s : CarState) : CarState :=
  { s with nitroActive := true, nitroTimeLeft := NITRO_DURATION }

/-- `Car.disable` (private). -/
def disable (s : CarState) : CarState :=
  { s with
    isDisabled := true
    disableTimer := DISABLE_DURATION
    bodyVelocity := Vec3.zero }

/-- `Car.repair`. -/
def repair (s : CarState) : CarState :=
  { s with health := 100, isDisabled := false, disableTimer := 0 }

/-- Damage table of `Car.handleCollision`'s switch. -/
def damageFor : CollisionType → ℚ
  | .minor => MINOR_BUMP_DAMAGE
  | .wall => WALL_CRASH_DAMAGE
  | .headOn => HEAD_ON_CRASH_DAMAGE

/-- `Car.handleCollision`. -/
def handleCollision (t : CollisionType) (s : CarState) : CarState :=
  if s.isDisabled then s
  else
    let s' := { s with health := max 0 (s.health - damageFor t) }
    if s'.health ≤ 0 then disable s' else s'

/-- `Car.teleportTo`. -/
def teleportTo (p : Vec3) (s : CarState) : CarState :=
  { s with
    bodyPosition := p
    bodyVelocity := Vec3.zero
    bodyAngularVelocity := Vec3.zero }

/-- `Car.startAutoDrive` (`now` is `Date.now()`). -/
def startAutoDrive (now : ℚ) (s : CarState) : CarState :=
  { s with isAutoDriving := true, autoDriveStartTime := now }

/-- `Car.updateRaceStatus` (private; called first inside `update`). -/
def updateRaceStatus (now : ℚ) (s : CarState) : CarState :=
  if s.raceStatus.raceStarted ∧ ¬s.raceStatus.raceFinished then
    let s' := { s with
      raceStatus := { s.raceStatus with raceTime := (now - s.raceStartTime) / 1000 } }
    if distSq s'.meshPosition s'.finishPosition < CHECKPOINT_RADIUS * CHECKPOINT_RADIUS then
      finishRace now s'
    else s'
  else s

/-- `Car.update(deltaTime)`; `deltaTime` is in seconds, `now` is `Date.now()`
read during the call.  The auto-drive branch additionally applies a drive
force and a steering torque to the physics body (external side effects on the
CANNON world, not on any `Car` field); its only field mutations are the
`progress >= 1` finish. -/
def update (deltaTime now : ℚ) (s : CarState) : CarState :=
  let s1 := updateRaceStatus now s
  let s2 :=
    if s1.isDisabled then
      let s' := { s1 with disableTimer := max 0 (s1.disableTimer - deltaTime * 1000) }
      if s'.disableTimer = 0 then repair s' else s'
    else s1
  if s2.isAutoDriving then
    let progress := min 1 ((now - s2.autoDriveStartTime) / AUTO_DRIVE_DURATION)
    if progress ≥ 1 then
      { s2 with
        isAutoDriving := false
        raceStatus := { s2.raceStatus with raceFinished := true } }
    else s2
  else s2

/-- `Car.applyControls`, returning the updated state together with the force
triple handed to `physics.applyCarForces` (`none` when the method returned
early and no forces were applied). -/
def applyControlsAux (input : Input) (now : ℚ) (s : CarState) : CarState × Option Forces :=
  if s.crashed then (s, none)
  else if s.raceStatus.raceFinished then (s, none)
  else
    let s1 :=
      if ¬s.raceStatus.raceStarted ∧
          distSq s.meshPosition s.startPosition < CHECKPOINT_RADIUS * CHECKPOINT_RADIUS then
        startRace now s
      else s
    let accel :=
      if input.forward then
        if s1.nitroActive then ACCELERATION_FORCE * NITRO_MULTIPLIER else ACCELERATION_FORCE
      else 0
    let brake := if input.backward then BRAKING_FORCE else 0
    let steer :=
      if input.right then STEERING_FORCE else if input.left then -STEERING_FORCE else 0
    let s2 := { s1 with acceleration := accel, braking := brake, steering := steer }
    let s3 :=
      if input.nitro ∧ ¬s2.nitroActive ∧ s2.nitroTimeLeft = 0 then activateNitro s2 else s2
    (s3, some ⟨accel, brake, steer⟩)

/-- `Car.applyControls` as a state transformer. -/
def applyControls (input : Input) (now : ℚ) (s : CarState) : CarState :=
  (applyControlsAux input now s).1

/-- Severity classification in the constructor's collide listener. -/
def classifyCollision (v : ℚ) : CollisionType :=
  if |v| < 5 then .minor
  else if |v| < 10 then .wall
  else .headOn

/-- The collide-event listener installed by the `Car` constructor:
`isGround` is `physics.isGroundBody(event.body)`, `niY` is `event.contact.ni.y`
and `v` is `event.contact.getImpactVelocityAlongNormal()`. -/
def collide (isGround : Bool) (niY v : ℚ) (s : CarState) : CarState :=
  if s.isInitializing then s
  else if isGround = true ∧ |niY| > 4 / 5 ∧ |v| < 5 then s
  else handleCollision (classifyCollision v) s

end Car

/-- The externally triggered operations on a `Car`: the game loop calls
`applyControls` then `update` each frame, the physics engine fires collide
events and moves/synchronizes the body and mesh, the UI layer calls
`teleportTo`, `resetRace` and `startAutoDrive`, and the grace-period
`setTimeout` armed by the constructor fires `initEnd` once.  `handleCollision`
is a public method and is kept as an event of its own. -/
inductive Event where
  | applyControls (input : Input) (now : ℚ)
  | update (delta now : ℚ)
  | collide (isGround : Bool) (niY v : ℚ)
  | handleCollision (t : CollisionType)
  | teleportTo (p : Vec3)
  | resetRace
  | startAutoDrive (now : ℚ)
  | initEnd
  | physicsStep (pos vel angVel : Vec3)
deriving DecidableEq, Repr

/-- One externally triggered step.  `physicsStep` over-approximates
`PhysicsWorld.update`: the solver moves the body arbitrarily and the mesh
transform is synchronized to the body. -/
def step (s : CarState) : Event → CarState
  | .applyControls input now => Car.applyControls input now s
  | .update delta now => Car.update delta now s
  | .collide isGround niY v => Car.collide isGround niY v s
  | .handleCollision t => Car.handleCollision t s
  | .teleportTo p => Car.teleportTo p s
  | .resetRace => Car.resetRace s
  | .startAutoDrive now => Car.startAutoDrive now s
  | .initEnd => { s with isInitializing := false }
  | .physicsStep pos vel angVel =>
      { s with
        bodyPosition := pos
        bodyVelocity := vel
        bodyAngularVelocity := angVel
        meshPosition := pos }

/-- Run a sequence of external events from a state. -/
def run (s : CarState) (evs : List Event) : CarState := evs.foldl step s

/-- Whether an event is a `startAutoDrive` trigger. -/
def Event.usesAutoDrive : Event → Bool
  | .startAutoDrive _ => true
  | _ => false

/-- Sample vehicle: spawned at `(0,1,0)`, start waypoint `(0,0,0)` (within the
checkpoint radius of the spawn), finish waypoint `(0,0,100)`. -/
def sampleCar : CarState := Car.mkCar ⟨0, 1, 0⟩ ⟨0, 0, 0⟩ ⟨0, 0, 100⟩

/-- Sample vehicle whose start waypoint `(100,0,0)` is outside the checkpoint
radius of its spawn `(0,1,0)`, so `applyControls` never triggers a race start. -/
def farCar : CarState := Car.mkCar ⟨0, 1, 0⟩ ⟨100, 0, 0⟩ ⟨0, 0, 200⟩

/-- A vehicle disabled by damage: grace period over, then five head-on
collisions drive health from 100 to exactly 0, which disables the car. -/
def disabledCar : CarState :=
  run farCar
    [.initEnd, .handleCollision .headOn, .handleCollision .headOn, .handleCollision .headOn,
     .handleCollision .headOn, .handleCollision .headOn]

/-- A mid-boost vehicle state as the spec envisions one: nitro active with the
countdown partially consumed (3000 of the 5000 ms left). -/
def midBoostCar : CarState := { farCar with nitroActive := true, nitroTimeLeft := 3000 }

namespace PhysicsWorld

/-- `maxSpeed` local constant of the speed-limited `applyCarForces`. -/
def maxSpeed : ℚ := 30

/-- `speedFactor` of the speed-limited `PhysicsWorld.applyCarForces`:
`Math.max(0, 1 - currentVelocity / maxSpeed)`. -/
def speedFactor (currentVelocity : ℚ) : ℚ :=
  max 0 (1 - currentVelocity / maxSpeed)

/-- `finalForce` computed by the speed-limited `PhysicsWorld.applyCarForces`
(the longitudinal force applied along the body's local forward axis;
initialized to 0, set by the `acceleration > 0` branch, else by the
`braking > 0` branch). -/
def finalForce (acceleration braking currentVelocity : ℚ) : ℚ :=
  if acceleration > 0 then acceleration * speedFactor currentVelocity
  else if braking > 0 then -braking * (currentVelocity / maxSpeed + 1 / 5)
  else 0

end PhysicsWorld

namespace Car

@[simp] lemma startRace_health (now : ℚ) (s : CarState) : (startRace now s).health = s.health := by
  unfold startRace; split <;> rfl

@[simp] lemma startRace_isDisabled (now : ℚ) (s : CarState) :
    (startRace now s).isDisabled = s.isDisabled := by
  unfold startRace; split <;> rfl

@[simp] lemma startRace_disableTimer (now : ℚ) (s : CarState) :
    (startRace now s).disableTimer = s.disableTimer := by
  unfold startRace; split <;> rfl

@[simp] lemma startRace_nitroActive (now : ℚ) (s : CarState) :
    (startRace now s).nitroActive = s.nitroActive := by
  unfold startRace; split <;> rfl

@[simp] lemma startRace_nitroTimeLeft (now : ℚ) (s : CarState) :
    (startRace now s).nitroTimeLeft = s.nitroTimeLeft := by
  unfold startRace; split <;> rfl

@[simp] lemma startRace_raceFinished (now : ℚ) (s : CarState) :
    (startRace now s).raceStatus.raceFinished = s.raceStatus.raceFinished := by
  unfold startRace; split <;> rfl

@[simp] lemma startRace_isAutoDriving (now : ℚ) (s : CarState) :
    (startRace now s).isAutoDriving = s.isAutoDriving := by
  unfold startRace; split <;> rfl

@[simp] lemma finishRace_health (now : ℚ) (s : CarState) : (finishRace now s).health = s.health := by
  unfold finishRace; split <;> rfl

@[simp] lemma finishRace_isDisabled (now : ℚ) (s : CarState) :
    (finishRace now s).isDisabled = s.isDisabled := by
  unfold finishRace; split <;> rfl

@[simp] lemma finishRace_disableTimer (now : ℚ) (s : CarState) :
    (finishRace now s).disableTimer = s.disableTimer := by
  unfold finishRace; split <;> rfl

@[simp] lemma finishRace_nitroActive (now : ℚ) (s : CarState) :
    (finishRace now s).nitroActive = s.nitroActive := by
  unfold finishRace; split <;> rfl

@[simp] lemma finishRace_nitroTimeLeft (now : ℚ) (s : CarState) :
    (finishRace now s).nitroTimeLeft = s.nitroTimeLeft := by
  unfold finishRace; split <;> rfl

@[simp] lemma finishRace_raceStarted (now : ℚ) (s : CarState) :
    (finishRace now s).raceStatus.raceStarted = s.raceStatus.raceStarted := by
  unfold finishRace; split <;> rfl

@[simp] lemma finishRace_isAutoDriving (now : ℚ) (s : CarState) :
    (finishRace now s).isAutoDriving = s.isAutoDriving := by
  unfold finishRace; split <;> rfl

@[simp] lemma repair_health (s : CarState) : (repair s).health = 100 := rfl

@[simp] lemma repair_isDisabled (s : CarState) : (repair s).isDisabled = false := rfl

@[simp] lemma repair_disableTimer (s : CarState) : (repair s).disableTimer = 0 := rfl

@[simp] lemma repair_nitroActive (s : CarState) : (repair s).nitroActive = s.nitroActive := rfl

@[simp] lemma repair_nitroTimeLeft (s : CarState) : (repair s).nitroTimeLeft = s.nitroTimeLeft := rfl

@[simp] lemma repair_raceStatus (s : CarState) : (repair s).raceStatus = s.raceStatus := rfl

@[simp] lemma repair_isAutoDriving (s : CarState) : (repair s).isAutoDriving = s.isAutoDriving := rfl

@[simp] lemma disable_health (s : CarState) : (disable s).health = s.health := rfl

@[simp] lemma disable_nitroActive (s : CarState) : (disable s).nitroActive = s.nitroActive := rfl

@[simp] lemma disable_nitroTimeLeft (s : CarState) : (disable s).nitroTimeLeft = s.nitroTimeLeft := rfl

@[simp] lemma disable_raceStatus (s : CarState) : (disable s).raceStatus = s.raceStatus := rfl

@[simp] lemma disable_isAutoDriving (s : CarState) : (disable s).isAutoDriving = s.isAutoDriving := rfl

@[simp] lemma activateNitro_health (s : CarState) : (activateNitro s).health = s.health := rfl

@[simp] lemma activateNitro_isDisabled (s : CarState) :
    (activateNitro s).isDisabled = s.isDisabled := rfl

@[simp] lemma activateNitro_disableTimer (s : CarState) :
    (activateNitro s).disableTimer = s.disableTimer := rfl

@[simp] lemma activateNitro_raceStatus (s : CarState) :
    (activateNitro s).raceStatus = s.raceStatus := rfl

@[simp] lemma activateNitro_isAutoDriving (s : CarState) :
    (activateNitro s).isAutoDriving = s.isAutoDriving := rfl

@[simp] lemma activateNitro_nitroActive (s : CarState) : (activateNitro s).nitroActive = true := rfl

@[simp] lemma activateNitro_nitroTimeLeft (s : CarState) :
    (activateNitro s).nitroTimeLeft = NITRO_DURATION := rfl

@[simp] lemma resetRace_health (s : CarState) : (resetRace s).health = s.health := rfl

@[simp] lemma resetRace_isDisabled (s : CarState) : (resetRace s).isDisabled = s.isDisabled := rfl

@[simp] lemma resetRace_disableTimer (s : CarState) :
    (resetRace s).disableTimer = s.disableTimer := rfl

@[simp] lemma resetRace_nitroActive (s : CarState) :
    (resetRace s).nitroActive = s.nitroActive := rfl

@[simp] lemma resetRace_nitroTimeLeft (s : CarState) :
    (resetRace s).nitroTimeLeft = s.nitroTimeLeft := rfl

@[simp] lemma resetRace_raceStatus (s : CarState) : (resetRace s).raceStatus = ⟨false, false, 0⟩ := rfl

@[simp] lemma resetRace_isAutoDriving (s : CarState) :
    (resetRace s).isAutoDriving = s.isAutoDriving := rfl

@[simp] lemma teleportTo_health (p : Vec3) (s : CarState) : (teleportTo p s).health = s.health := rfl

@[simp] lemma teleportTo_isDisabled (p : Vec3) (s : CarState) :
    (teleportTo p s).isDisabled = s.isDisabled := rfl

@[simp] lemma teleportTo_disableTimer (p : Vec3) (s : CarState) :
    (teleportTo p s).disableTimer = s.disableTimer := rfl

@[simp] lemma teleportTo_nitroActive (p : Vec3) (s : CarState) :
    (teleportTo p s).nitroActive = s.nitroActive := rfl

@[simp] lemma teleportTo_nitroTimeLeft (p : Vec3) (s : CarState) :
    (teleportTo p s).nitroTimeLeft = s.nitroTimeLeft := rfl

@[simp] lemma teleportTo_raceStatus (p : Vec3) (s : CarState) :
    (teleportTo p s).raceStatus = s.raceStatus := rfl

@[simp] lemma teleportTo_isAutoDriving (p : Vec3) (s : CarState) :
    (teleportTo p s).isAutoDriving = s.isAutoDriving := rfl

@[simp] lemma startAutoDrive_health (now : ℚ) (s : CarState) :
    (startAutoDrive now s).health = s.health := rfl

@[simp] lemma startAutoDrive_isDisabled (now : ℚ) (s : CarState) :
    (startAutoDrive now s).isDisabled = s.isDisabled := rfl

@[simp] lemma startAutoDrive_disableTimer (now : ℚ) (s : CarState) :
    (startAutoDrive now s).disableTimer = s.disableTimer := rfl

@[simp] lemma startAutoDrive_nitroActive (now : ℚ) (s : CarState) :
    (startAutoDrive now s).nitroActive = s.nitroActive := rfl

@[simp] lemma startAutoDrive_nitroTimeLeft (now : ℚ) (s : CarState) :
    (startAutoDrive now s).nitroTimeLeft = s.nitroTimeLeft := rfl

@[simp] lemma startAutoDrive_raceStatus (now : ℚ) (s : CarState) :
    (startAutoDrive now s).raceStatus = s.raceStatus := rfl

@[simp] lemma updateRaceStatus_health (now : ℚ) (s : CarState) :
    (updateRaceStatus now s).health = s.health := by
  simp only [updateRaceStatus]; split_ifs <;> simp

@[simp] lemma updateRaceStatus_isDisabled (now : ℚ) (s : CarState) :
    (updateRaceStatus now s).isDisabled = s.isDisabled := by
  simp only [updateRaceStatus]; split_ifs <;> simp

@[simp] lemma updateRaceStatus_disableTimer (now : ℚ) (s : CarState) :
    (updateRaceStatus now s).disableTimer = s.disableTimer := by
  simp only [updateRaceStatus]; split_ifs <;> simp

@[simp] lemma updateRaceStatus_nitroActive (now : ℚ) (s : CarState) :
    (updateRaceStatus now s).nitroActive = s.nitroActive := by
  simp only [updateRaceStatus]; split_ifs <;> simp

@[simp] lemma updateRaceStatus_nitroTimeLeft (now : ℚ) (s : CarState) :
    (updateRaceStatus now s).nitroTimeLeft = s.nitroTimeLeft := by
  simp only [updateRaceStatus]; split_ifs <;> simp

@[simp] lemma updateRaceStatus_raceStarted (now : ℚ) (s : CarState) :
    (updateRaceStatus now s).raceStatus.raceStarted = s.raceStatus.raceStarted := by
  simp only [updateRaceStatus]; split_ifs <;> simp

@[simp] lemma updateRaceStatus_isAutoDriving (now : ℚ) (s : CarState) :
    (updateRaceStatus now s).isAutoDriving = s.isAutoDriving := by
  simp only [updateRaceStatus]; split_ifs <;> simp

lemma updateRaceStatus_finished_imp (now : ℚ) (s : CarState)
    (h : (updateRaceStatus now s).raceStatus.raceFinished = true) :
    s.raceStatus.raceFinished = true ∨ s.raceStatus.raceStarted = true := by
  simp only [updateRaceStatus] at h
  split_ifs at h with h1 h2
  · exact Or.inr h1.1
  · exact Or.inr h1.1
  · exact Or.inl h

@[simp] lemma update_nitroActive (d now : ℚ) (s : CarState) :
    (update d now s).nitroActive = s.nitroActive := by
  simp only [update]; split_ifs <;> simp

@[simp] lemma update_nitroTimeLeft (d now : ℚ) (s : CarState) :
    (update d now s).nitroTimeLeft = s.nitroTimeLeft := by
  simp only [update]; split_ifs <;> simp

lemma update_health_eq_or (d now : ℚ) (s : CarState) :
    (update d now s).health = s.health ∨ (update d now s).health = 100 := by
  simp only [update]; split_ifs <;> simp

lemma update_of_not_disabled (d now : ℚ) (s : CarState) (h : s.isDisabled = false) :
    (update d now s).isDisabled = false ∧ (update d now s).health = s.health ∧
      (update d now s).disableTimer = s.disableTimer := by
  simp only [update]
  split_ifs with h1 h2 h3 h3 <;> simp_all

lemma update_of_disabled (d now : ℚ) (s : CarState) (h : s.isDisabled = true) :
    (max 0 (s.disableTimer - d * 1000) = 0 →
      (update d now s).isDisabled = false ∧ (update d now s).health = 100 ∧
        (update d now s).disableTimer = 0) ∧
    (max 0 (s.disableTimer - d * 1000) ≠ 0 →
      (update d now s).isDisabled = true ∧ (update d now s).health = s.health ∧
        (update d now s).disableTimer = max 0 (s.disableTimer - d * 1000)) := by
  simp only [update]
  split_ifs with h1 h2 h3 h3 <;> simp_all

@[simp] lemma update_raceStarted (d now : ℚ) (s : CarState) :
    (update d now s).raceStatus.raceStarted = s.raceStatus.raceStarted := by
  simp only [update]; split_ifs <;> simp

lemma update_isAutoDriving_of_false (d now : ℚ) (s : CarState) (hA : s.isAutoDriving = false) :
    (update d now s).isAutoDriving = false := by
  simp only [update]; split_ifs <;> simp_all

lemma update_raceFinished_imp (d now : ℚ) (s : CarState) (hA : s.isAutoDriving = false)
    (hf : (update d now s).raceStatus.raceFinished = true) :
    (updateRaceStatus now s).raceStatus.raceFinished = true := by
  simp only [update] at hf
  split_ifs at hf <;> simp_all

lemma update_race_invariant (d now : ℚ) (s : CarState) (hA : s.isAutoDriving = false)
    (h : s.raceStatus.raceFinished = true → s.raceStatus.raceStarted = true) :
    (update d now s).isAutoDriving = false ∧
      ((update d now s).raceStatus.raceFinished = true →
        (update d now s).raceStatus.raceStarted = true) := by
  refine ⟨update_isAutoDriving_of_false d now s hA, fun hf => ?_⟩
  rw [update_raceStarted]
  rcases updateRaceStatus_finished_imp now s (update_raceFinished_imp d now s hA hf) with hf' | hs'
  · exact h hf'
  · exact hs'

lemma handleCollision_health_bounds (t : CollisionType) (s : CarState)
    (h0 : 0 ≤ s.health) (h1 : s.health ≤ 100) :
    0 ≤ (handleCollision t s).health ∧ (handleCollision t s).health ≤ 100 := by
  have hd : 0 ≤ damageFor t := by
    cases t <;> norm_num [damageFor, MINOR_BUMP_DAMAGE, WALL_CRASH_DAMAGE, HEAD_ON_CRASH_DAMAGE]
  simp only [handleCollision]
  split_ifs with hdis hz
  · exact ⟨h0, h1⟩
  · exact ⟨le_max_left 0 _, max_le (by norm_num) (by linarith)⟩
  · exact ⟨le_max_left 0 _, max_le (by norm_num) (by linarith)⟩

@[simp] lemma handleCollision_nitroActive (t : CollisionType) (s : CarState) :
    (handleCollision t s).nitroActive = s.nitroActive := by
  simp only [handleCollision]; split_ifs <;> simp

@[simp] lemma handleCollision_nitroTimeLeft (t : CollisionType) (s : CarState) :
    (handleCollision t s).nitroTimeLeft = s.nitroTimeLeft := by
  simp only [handleCollision]; split_ifs <;> simp

@[simp] lemma handleCollision_raceStatus (t : CollisionType) (s : CarState) :
    (handleCollision t s).raceStatus = s.raceStatus := by
  simp only [handleCollision]; split_ifs <;> simp [disable]

@[simp] lemma handleCollision_isAutoDriving (t : CollisionType) (s : CarState) :
    (handleCollision t s).isAutoDriving = s.isAutoDriving := by
  simp only [handleCollision]; split_ifs <;> simp [disable]

lemma collide_cases (g : Bool) (niY v : ℚ) (s : CarState) :
    collide g niY v s = s ∨ collide g niY v s = handleCollision (classifyCollision v) s := by
  simp only [collide]; split_ifs <;> simp

lemma applyControlsAux_fst_health (i : Input) (now : ℚ) (s : CarState) :
    ((applyControlsAux i now s).1).health = s.health := by
  simp only [applyControlsAux]; split_ifs <;> simp

lemma applyControlsAux_fst_isDisabled (i : Input) (now : ℚ) (s : CarState) :
    ((applyControlsAux i now s).1).isDisabled = s.isDisabled := by
  simp only [applyControlsAux]; split_ifs <;> simp

lemma applyControlsAux_fst_disableTimer (i : Input) (now : ℚ) (s : CarState) :
    ((applyControlsAux i now s).1).disableTimer = s.disableTimer := by
  simp only [applyControlsAux]; split_ifs <;> simp

lemma applyControlsAux_fst_raceFinished (i : Input) (now : ℚ) (s : CarState) :
    ((applyControlsAux i now s).1).raceStatus.raceFinished = s.raceStatus.raceFinished := by
  simp only [applyControlsAux]; split_ifs <;> simp [activateNitro]

lemma applyControlsAux_fst_isAutoDriving (i : Input) (now : ℚ) (s : CarState) :
    ((applyControlsAux i now s).1).isAutoDriving = s.isAutoDriving := by
  simp only [applyControlsAux]; split_ifs <;> simp [activateNitro]

lemma applyControlsAux_fst_raceStarted_of_started (i : Input) (now : ℚ) (s : CarState)
    (h : s.raceStatus.raceStarted = true) :
    ((applyControlsAux i now s).1).raceStatus.raceStarted = true := by
  simp only [applyControlsAux]; split_ifs <;> simp_all [activateNitro, startRace]

lemma applyControlsAux_fst_nitro_invariant (i : Input) (now : ℚ) (s : CarState)
    (h : s.nitroActive = true → s.nitroTimeLeft = NITRO_DURATION) :
    ((applyControlsAux i now s).1).nitroActive = true →
      ((applyControlsAux i now s).1).nitroTimeLeft = NITRO_DURATION := by
  simp only [applyControlsAux]; split_ifs <;> simp_all

lemma applyControlsAux_nitro_of_active (i : Input) (now : ℚ) (s : CarState)
    (h : s.nitroActive = true) :
    ((applyControlsAux i now s).1).nitroActive = s.nitroActive ∧
      ((applyControlsAux i now s).1).nitroTimeLeft = s.nitroTimeLeft := by
  simp only [applyControlsAux]; split_ifs <;> simp_all

end Car

lemma run_nil (s : CarState) : run s [] = s := rfl

lemma run_cons (s : CarState) (e : Event) (evs : List Event) :
    run s (e :: evs) = run (step s e) evs := rfl

lemma run_invariant {P : CarState → Prop} (hstep : ∀ s e, P s → P (step s e)) :
    ∀ (evs : List Event) (s : CarState), P s → P (run s evs) := by
  intro evs
  induction evs with
  | nil => intro s hs; exact hs
  | cons e t ih => intro s hs; exact ih (step s e) (hstep s e hs)

lemma run_invariant_restricted {P : CarState → Prop} {Q : Event → Prop}
    (hstep : ∀ s e, Q e → P s → P (step s e)) :
    ∀ (evs : List Event) (s : CarState), (∀ e ∈ evs, Q e) → P s → P (run s evs) := by
  intro evs
  induction evs with
  | nil => intro s _ hs; exact hs
  | cons e t ih =>
      intro s hq hs
      exact ih (step s e) (fun e' he' => hq e' (List.mem_cons_of_mem e he'))
        (hstep s e (hq e (List.mem_cons_self e t)) hs)

lemma step_health_bounds (s : CarState) (e : Event)
    (h : 0 ≤ s.health ∧ s.health ≤ 100) :
    0 ≤ (step s e).health ∧ (step s e).health ≤ 100 := by
  cases e with
  | applyControls i now =>
      show 0 ≤ (Car.applyControls i now s).health ∧ (Car.applyControls i now s).health ≤ 100
      rw [Car.applyControls, Car.applyControlsAux_fst_health]; exact h
  | update d now =>
      rcases Car.update_health_eq_or d now s with he | he <;>
        · show 0 ≤ (Car.update d now s).health ∧ (Car.update d now s).health ≤ 100
          rw [he]; first | exact h | norm_num
  | collide g niY v =>
      show 0 ≤ (Car.collide g niY v s).health ∧ (Car.collide g niY v s).health ≤ 100
      rcases Car.collide_cases g niY v s with hc | hc
      · rw [hc]; exact h
      · rw [hc]; exact Car.handleCollision_health_bounds _ s h.1 h.2
  | handleCollision t =>
      exact Car.handleCollision_health_bounds t s h.1 h.2
  | teleportTo p => exact h
  | resetRace => exact h
  | startAutoDrive now => exact h
  | initEnd => exact h
  | physicsStep p v w => exact h

lemma step_nitro_invariant (s : CarState) (e : Event)
    (h : s.nitroActive = true → s.nitroTimeLeft = Car.NITRO_DURATION) :
    (step s e).nitroActive = true → (step s e).nitroTimeLeft = Car.NITRO_DURATION := by
  cases e with
  | applyControls i now => exact Car.applyControlsAux_fst_nitro_invariant i now s h
  | update d now =>
      simp only [step, Car.update_nitroActive, Car.update_nitroTimeLeft]; exact h
  | collide g niY v =>
      simp only [step]
      rcases Car.collide_cases g niY v s with hc | hc <;> rw [hc]
      · exact h
      · rw [Car.handleCollision_nitroActive, Car.handleCollision_nitroTimeLeft]; exact h
  | handleCollision t =>
      simp only [step, Car.handleCollision_nitroActive, Car.handleCollision_nitroTimeLeft]
      exact h
  | teleportTo p => exact h
  | resetRace => exact h
  | startAutoDrive now => exact h
  | initEnd => exact h
  | physicsStep p v w => exact h

lemma step_race_invariant (s : CarState) (e : Event) (he : e.usesAutoDrive = false)
    (h : s.isAutoDriving = false ∧
      (s.raceStatus.raceFinished = true → s.raceStatus.raceStarted = true)) :
    (step s e).isAutoDriving = false ∧
      ((step s e).raceStatus.raceFinished = true → (step s e).raceStatus.raceStarted = true) := by
  cases e with
  | applyControls i now =>
      simp only [step]
      refine ⟨?_, fun hf => ?_⟩
      · rw [Car.applyControls, Car.applyControlsAux_fst_isAutoDriving]; exact h.1
      · have hf' : s.raceStatus.raceFinished = true := by
          rw [Car.applyControls, Car.applyControlsAux_fst_raceFinished] at hf
          exact hf
        exact Car.applyControlsAux_fst_raceStarted_of_started i now s (h.2 hf')
  | update d now => exact Car.update_race_invariant d now s h.1 h.2
  | collide g niY v =>
      simp only [step]
      rcases Car.collide_cases g niY v s with hc | hc <;> rw [hc]
      · exact h
      · rw [Car.handleCollision_isAutoDriving, Car.handleCollision_raceStatus]; exact h
  | handleCollision t =>
      simp only [step]
      rw [Car.handleCollision_isAutoDriving, Car.handleCollision_raceStatus]; exact h
  | teleportTo p => exact h
  | resetRace => exact ⟨h.1, by intro hf; simp [step, Car.resetRace] at hf⟩
  | startAutoDrive now => simp [Event.usesAutoDrive] at he
  | initEnd => exact h
  | physicsStep p v w => exact h

lemma handleCollision_disables (t : CollisionType) (s : CarState)
    (hnd : s.isDisabled = false)
    (hz : (Car.handleCollision t s).health = 0) :
    Car.handleCollision t s =
      Car.disable { s with health := max 0 (s.health - Car.damageFor t) } := by
  have hhealth : (Car.handleCollision t s).health = max 0 (s.health - Car.damageFor t) := by
    simp only [Car.handleCollision]
    rw [if_neg (by simp [hnd])]
    split_ifs <;> simp
  have hcond : ({ s with health := max 0 (s.health - Car.damageFor t) } : CarState).health ≤ 0 := by
    show max 0 (s.health - Car.damageFor t) ≤ 0
    rw [← hhealth, hz]
  simp only [Car.handleCollision]
  rw [if_neg (by simp [hnd]), if_pos hcond]

lemma updates_keep_repaired :
    ∀ (steps : List (ℚ × ℚ)) (s : CarState), s.isDisabled = false →
      (steps.foldl (fun st x => Car.update x.1 x.2 st) s).isDisabled = false ∧
      (steps.foldl (fun st x => Car.update x.1 x.2 st) s).health = s.health := by
  intro steps
  induction steps with
  | nil => exact fun s h => ⟨h, rfl⟩
  | cons a l ih =>
      intro s h
      have h1 := Car.update_of_not_disabled a.1 a.2 s h
      have h2 := ih (Car.update a.1 a.2 s) h1.1
      exact ⟨h2.1, h2.2.trans h1.2.1⟩

lemma updates_drain_disable :
    ∀ (steps : List (ℚ × ℚ)) (s : CarState), s.isDisabled = true →
      s.disableTimer = 1000 * (steps.map Prod.fst).sum →
      0 < s.disableTimer →
      (∀ x ∈ steps, 0 ≤ x.1) →
      (steps.foldl (fun st x => Car.update x.1 x.2 st) s).isDisabled = false ∧
      (steps.foldl (fun st x => Car.update x.1 x.2 st) s).health = 100 := by
  intro steps
  induction steps with
  | nil =>
      intro s _ htimer hpos _
      rw [List.map_nil, List.sum_nil, mul_zero] at htimer
      exact absurd htimer (by linarith)
  | cons a l ih =>
      intro s hdis htimer hpos hnn
      have ha : 0 ≤ a.1 := hnn a (List.mem_cons_self a l)
      have hrest : 0 ≤ (l.map Prod.fst).sum :=
        List.sum_nonneg (by
          intro q hq
          rcases List.mem_map.1 hq with ⟨x, hx, rfl⟩
          exact hnn x (List.mem_cons_of_mem a hx))
      have hsplit : s.disableTimer - a.1 * 1000 = 1000 * (l.map Prod.fst).sum := by
        rw [htimer, List.map_cons, List.sum_cons]
        ring
      have hstep := Car.update_of_disabled a.1 a.2 s hdis
      by_cases hT : max 0 (s.disableTimer - a.1 * 1000) = 0
      · have hr := (hstep.1) hT
        have := updates_keep_repaired l (Car.update a.1 a.2 s) hr.1
        rw [List.foldl_cons]
        exact ⟨this.1, this.2.trans hr.2.1⟩
      · have hr := (hstep.2) hT
        have hmax : max 0 (s.disableTimer - a.1 * 1000) = 1000 * (l.map Prod.fst).sum := by
          rw [hsplit]
          exact max_eq_right (by positivity)
        have hpos' : 0 < 1000 * (l.map Prod.fst).sum := by
          rcases lt_or_eq_of_le (by positivity : (0:ℚ) ≤ 1000 * (l.map Prod.fst).sum) with h' | h'
          · exact h'
          · exact absurd (hmax.trans h'.symm) hT
        rw [List.foldl_cons]
        exact ih (Car.update a.1 a.2 s) hr.1 (hr.2.2.trans hmax)
          (hr.2.2 ▸ (hmax ▸ hpos')) (fun x hx => hnn x (List.mem_cons_of_mem a hx))

/-- Claim C9: `teleportTo(p)` force-sets the body position to exactly `p` and
zeroes the linear and angular velocity, while leaving health, raceStatus and
the disabled state (flag and countdown) unchanged. -/
theorem claim_teleportTo_roundtrip (p : Vec3) (s : CarState) :
    (Car.teleportTo p s).bodyPosition = p ∧
    (Car.teleportTo p s).bodyVelocity = Vec3.zero ∧
    (Car.teleportTo p s).bodyAngularVelocity = Vec3.zero ∧
    (Car.teleportTo p s).health = s.health ∧
    (Car.teleportTo p s).raceStatus = s.raceStatus ∧
    (Car.teleportTo p s).isDisabled = s.isDisabled ∧
    (Car.teleportTo p s).disableTimer = s.disableTimer :=
  ⟨rfl, rfl, rfl, rfl, rfl, rfl, rfl⟩

/-- Claim C3: a collision event of any severity (including a high-speed one)
received while the vehicle is still in its initialization grace window is
discarded by the collide listener: zero damage, no state change at all. -/
theorem claim_collide_noop_while_initializing (g : Bool) (niY v : ℚ) (s : CarState)
    (h : s.isInitializing = true) : Car.collide g niY v s = s := by
  simp [Car.collide, h]

/-- Witness for C3: a freshly constructed vehicle receiving a high-speed
(`v = 50`) collision is left exactly as constructed. -/
theorem claim_collide_noop_while_initializing_witness :
    sampleCar.isInitializing = true ∧ Car.collide false 0 50 sampleCar = sampleCar :=
  ⟨rfl, claim_collide_noop_while_initializing false 0 50 sampleCar rfl⟩

/-- Claim C6: the collide listener classifies contacts in exactly this order:
a contact during the grace period is discarded; a ground contact whose normal
has `|ni.y| > 0.8` and absolute impact speed `< 5` is discarded; otherwise the
severity is minor for `|v| < 5`, wall for `5 ≤ |v| < 10`, headOn for
`|v| ≥ 10`, and the resulting tag is fed to `handleCollision`. -/
theorem claim_collision_classification (g : Bool) (niY v : ℚ) (s : CarState) :
    (s.isInitializing = true → Car.collide g niY v s = s) ∧
    (s.isInitializing = false → g = true → 4 / 5 < |niY| → |v| < 5 →
      Car.collide g niY v s = s) ∧
    (s.isInitializing = false → ¬(g = true ∧ 4 / 5 < |niY| ∧ |v| < 5) →
      Car.collide g niY v s =
        Car.handleCollision
          (if |v| < 5 then CollisionType.minor
           else if |v| < 10 then CollisionType.wall
           else CollisionType.headOn) s) := by
  refine ⟨fun h => by simp [Car.collide, h], fun h hg hn hv => ?_, fun h hng => ?_⟩
  · simp [Car.collide, h, hg, hn, hv]
  · simp only [Car.collide, h]
    rw [if_neg (by simp), if_neg hng]
    rfl

/-- Witness for C6: outside the grace window, a non-ground contact at impact
speed 7 is classified as a wall crash. -/
theorem claim_collision_classification_witness :
    Car.collide false 0 7 { sampleCar with isInitializing := false } =
      Car.handleCollision CollisionType.wall { sampleCar with isInitializing := false } := by
  have h :=
    (claim_collision_classification false 0 7
      { sampleCar with isInitializing := false }).2.2 rfl (by norm_num)
  have hsev :
      (if |(7 : ℚ)| < 5 then CollisionType.minor
       else if |(7 : ℚ)| < 10 then CollisionType.wall
       else CollisionType.headOn) = CollisionType.wall := by norm_num
  rw [hsev] at h
  exact h

/-- Claim C10: in the speed-limited `applyCarForces`, acceleration takes
precedence over braking: with positive acceleration the longitudinal force is
`acceleration * speedFactor` no matter what the braking input is; the braking
force (`-braking * (v/maxSpeed + 0.2)`) is applied only when acceleration is
zero, and with both inputs zero no longitudinal force is applied. -/
theorem claim_applyCarForces_accel_precedence (acceleration braking v : ℚ) :
    (0 < acceleration →
      PhysicsWorld.finalForce acceleration braking v =
        acceleration * PhysicsWorld.speedFactor v) ∧
    (acceleration = 0 → 0 < braking →
      PhysicsWorld.finalForce acceleration braking v =
        -braking * (v / PhysicsWorld.maxSpeed + 1 / 5)) ∧
    (acceleration = 0 → braking = 0 →
      PhysicsWorld.finalForce acceleration braking v = 0) := by
  refine ⟨fun h => ?_, fun h hb => ?_, fun h hb => ?_⟩
  · simp [PhysicsWorld.finalForce, h]
  · simp [PhysicsWorld.finalForce, h, hb]
  · simp [PhysicsWorld.finalForce, h, hb]

/-- Witness for C10: full throttle with full brake at rest yields exactly the
acceleration force scaled by the speed factor, the brake contributing
nothing. -/
theorem claim_applyCarForces_accel_precedence_witness :
    PhysicsWorld.finalForce 20000 15000 0 = 20000 * PhysicsWorld.speedFactor 0 :=
  (claim_applyCarForces_accel_precedence 20000 15000 0).1 (by norm_num)

/-- Claim C1: starting from a freshly constructed vehicle, every sequence of
external events (collisions with any severity tag, updates, controls, and the
other public operations, in any interleaving) keeps health within 0..100, and
`repair` always restores health to exactly 100. -/
theorem claim_health_invariant (p sp fp : Vec3) (evs : List Event) :
    (0 ≤ (run (Car.mkCar p sp fp) evs).health ∧
      (run (Car.mkCar p sp fp) evs).health ≤ 100) ∧
    (∀ s : CarState, (Car.repair s).health = 100) :=
  ⟨run_invariant step_health_bounds evs (Car.mkCar p sp fp)
      ⟨by norm_num [Car.mkCar], by norm_num [Car.mkCar]⟩,
    fun _ => rfl⟩

/-- Claim C5: when damage drives health to exactly 0, the car becomes disabled
with a 3000 ms countdown armed; any run of `update` calls with nonnegative
deltas summing to exactly 3 seconds then leaves the car enabled again with
health exactly 100. -/
theorem claim_disable_and_timed_repair (s : CarState) (t : CollisionType)
    (steps : List (ℚ × ℚ))
    (hnd : s.isDisabled = false)
    (hz : (Car.handleCollision t s).health = 0)
    (hnn : ∀ x ∈ steps, 0 ≤ x.1)
    (hsum : (steps.map Prod.fst).sum = 3) :
    (Car.handleCollision t s).isDisabled = true ∧
    (Car.handleCollision t s).disableTimer = 3000 ∧
    (steps.foldl (fun st x => Car.update x.1 x.2 st) (Car.handleCollision t s)).isDisabled
      = false ∧
    (steps.foldl (fun st x => Car.update x.1 x.2 st) (Car.handleCollision t s)).health
      = 100 := by
  have hh := handleCollision_disables t s hnd hz
  have hdis : (Car.handleCollision t s).isDisabled = true := by rw [hh]; rfl
  have htimer : (Car.handleCollision t s).disableTimer = 3000 := by rw [hh]; rfl
  have hdrain :=
    updates_drain_disable steps (Car.handleCollision t s) hdis
      (by rw [htimer, hsum]; norm_num) (by rw [htimer]; norm_num) hnn
  exact ⟨hdis, htimer, hdrain.1, hdrain.2⟩

/-- Witness for C5: a vehicle at health 20 hit head-on drops to exactly 0,
is disabled for 3000 ms, and two updates of 1.5 s each re-enable it at
health 100. -/
theorem claim_disable_and_timed_repair_witness :
    (Car.handleCollision CollisionType.headOn { farCar with health := 20 }).isDisabled = true ∧
    (Car.handleCollision CollisionType.headOn { farCar with health := 20 }).disableTimer = 3000 ∧
    ([((3:ℚ)/2, (100:ℚ)), ((3:ℚ)/2, (1600:ℚ))].foldl (fun st x => Car.update x.1 x.2 st)
      (Car.handleCollision CollisionType.headOn { farCar with health := 20 })).isDisabled
        = false ∧
    ([((3:ℚ)/2, (100:ℚ)), ((3:ℚ)/2, (1600:ℚ))].foldl (fun st x => Car.update x.1 x.2 st)
      (Car.handleCollision CollisionType.headOn { farCar with health := 20 })).health
        = 100 := by
  refine claim_disable_and_timed_repair { farCar with health := 20 } CollisionType.headOn
    [((3:ℚ)/2, (100:ℚ)), ((3:ℚ)/2, (1600:ℚ))] rfl ?_ ?_ ?_
  · norm_num [Car.handleCollision, farCar, Car.mkCar, Car.damageFor, Car.HEAD_ON_CRASH_DAMAGE,
      Car.disable]
  · intro x hx
    fin_cases hx <;> norm_num
  · norm_num

/-- Claim C2 (refuted by the code): `Car.update` never touches the nitro
fields — the nitro-countdown block present in the older `Car` variants was
dropped from this one.  In the concrete scenario of the claim (nitro
activated, then updates totalling the full 5000 ms duration) the countdown
still reads 5000 and `nitroActive` is still true, where the claim expects 0
and false. -/
theorem claim_nitro_countdown_never_advances :
    (∀ (d now : ℚ) (s : CarState),
      (Car.update d now s).nitroActive = s.nitroActive ∧
      (Car.update d now s).nitroTimeLeft = s.nitroTimeLeft) ∧
    ((run farCar
        [.applyControls ⟨false, false, false, false, true⟩ 0,
         .update 1 16, .update 1 1016, .update 1 2016, .update 1 3016,
         .update 1 4016]).nitroActive = true ∧
     (run farCar
        [.applyControls ⟨false, false, false, false, true⟩ 0,
         .update 1 16, .update 1 1016, .update 1 2016, .update 1 3016,
         .update 1 4016]).nitroTimeLeft = 5000) := by
  refine ⟨fun d now s => ⟨Car.update_nitroActive d now s, Car.update_nitroTimeLeft d now s⟩, ?_, ?_⟩ <;>
    norm_num [run, List.foldl, step, farCar, Car.mkCar, Car.applyControls, Car.applyControlsAux,
      Car.activateNitro, Car.startRace, Car.update, Car.updateRaceStatus, Car.repair,
      Car.finishRace, distSq, Car.CHECKPOINT_RADIUS, Car.NITRO_DURATION,
      Car.ACCELERATION_FORCE, Car.BRAKING_FORCE, Car.STEERING_FORCE, Car.AUTO_DRIVE_DURATION]

/-- Claim C4 (refuted by the code): `applyControls` does not check
`isDisabled`; its guard tests the vestigial `crashed` flag, which nothing in
this class ever sets.  A disabled car (health driven to 0) with forward input
still gets the full force triple `(20000, 0, 0)` handed to
`physics.applyCarForces`, and its `acceleration` accumulator is mutated. -/
theorem claim_applyControls_not_blocked_when_disabled :
    disabledCar.isDisabled = true ∧
    disabledCar.crashed = false ∧
    (Car.applyControlsAux ⟨true, false, false, false, false⟩ 2500 disabledCar).2 =
      some ⟨20000, 0, 0⟩ ∧
    ((Car.applyControlsAux ⟨true, false, false, false, false⟩ 2500 disabledCar).1).acceleration
      = 20000 := by
  have hd : disabledCar =
      { farCar with
        health := 0
        isDisabled := true
        disableTimer := 3000
        isInitializing := false
        bodyVelocity := Vec3.zero } := by
    norm_num [disabledCar, run, List.foldl, step, farCar, Car.mkCar, Car.handleCollision,
      Car.damageFor, Car.HEAD_ON_CRASH_DAMAGE, Car.disable, Car.DISABLE_DURATION]
  rw [hd]
  refine ⟨rfl, rfl, ?_, ?_⟩ <;>
    norm_num [Car.applyControlsAux, Car.startRace, Car.activateNitro, farCar, Car.mkCar,
      distSq, Car.CHECKPOINT_RADIUS, Car.ACCELERATION_FORCE, Car.BRAKING_FORCE,
      Car.STEERING_FORCE, Car.NITRO_MULTIPLIER]

/-- Counterexample to claim C7 as stated: `startAutoDrive` on a fresh vehicle
followed by an `update` 5000 ms later forcibly sets `raceFinished` while
`raceStarted` is still false. -/
theorem claim_race_invariant_counterexample :
    (run sampleCar [.startAutoDrive 0, .update (1/60) 5000]).raceStatus.raceFinished = true ∧
    (run sampleCar [.startAutoDrive 0, .update (1/60) 5000]).raceStatus.raceStarted = false := by
  norm_num [run, List.foldl, step, sampleCar, Car.mkCar, Car.startAutoDrive, Car.update,
    Car.updateRaceStatus, Car.repair, Car.finishRace, Car.AUTO_DRIVE_DURATION]

/-- Claim C7 (amended): `raceFinished = true` implies `raceStarted = true` in
every vehicle state reachable without `startAutoDrive`; the autopilot's forced
finish is the one transition that can violate the invariant. -/
theorem claim_race_finished_implies_started (p sp fp : Vec3) (evs : List Event)
    (hev : ∀ e ∈ evs, e.usesAutoDrive = false)
    (hf : (run (Car.mkCar p sp fp) evs).raceStatus.raceFinished = true) :
    (run (Car.mkCar p sp fp) evs).raceStatus.raceStarted = true := by
  have hinv :=
    run_invariant_restricted (P := fun s => s.isAutoDriving = false ∧
        (s.raceStatus.raceFinished = true → s.raceStatus.raceStarted = true))
      (Q := fun e => e.usesAutoDrive = false)
      step_race_invariant evs (Car.mkCar p sp fp) hev
      ⟨rfl, fun h => by simp [Car.mkCar] at h⟩
  exact hinv.2 hf

/-- Witness for C7 (amended): a race finished the ordinary way (start within
the checkpoint radius, body moved onto the finish waypoint, then an update)
has `raceStarted = true`. -/
theorem claim_race_finished_implies_started_witness :
    (run sampleCar
      [.applyControls ⟨true, false, false, false, false⟩ 0,
       .physicsStep ⟨0, 0, 100⟩ Vec3.zero Vec3.zero,
       .update (1/60) 1000]).raceStatus.raceStarted = true := by
  refine claim_race_finished_implies_started ⟨0, 1, 0⟩ ⟨0, 0, 0⟩ ⟨0, 0, 100⟩ _ ?_ ?_
  · intro e he
    fin_cases he <;> rfl
  · norm_num [run, List.foldl, step, sampleCar, Car.mkCar, Car.applyControls,
      Car.applyControlsAux, Car.startRace, Car.activateNitro, Car.update, Car.updateRaceStatus,
      Car.repair, Car.finishRace, distSq, Car.CHECKPOINT_RADIUS, Car.ACCELERATION_FORCE,
      Car.BRAKING_FORCE, Car.STEERING_FORCE, Car.NITRO_MULTIPLIER, Car.AUTO_DRIVE_DURATION]

/-- Counterexample to claim C8 as stated: on a mid-boost state with 3000 ms of
countdown left, a further `activateNitro` call does not leave `nitroTimeLeft`
unchanged — it resets it to the full 5000 ms. -/
theorem claim_activateNitro_counterexample :
    (midBoostCar.nitroActive = true ∧ 0 < midBoostCar.nitroTimeLeft) ∧
    (Car.activateNitro midBoostCar).nitroTimeLeft ≠ midBoostCar.nitroTimeLeft := by
  refine ⟨⟨rfl, by norm_num [midBoostCar]⟩, ?_⟩
  norm_num [Car.activateNitro, midBoostCar, Car.NITRO_DURATION]

/-- Claim C8 (amended): calling `activateNitro` again mid-boost resets the
countdown to the full 5000 ms rather than leaving it; however on every
*reachable* mid-boost state the countdown already reads exactly 5000 (since
`update` never decrements it), so there a second call changes neither
`nitroTimeLeft` nor `nitroActive` — and re-triggering through `applyControls`
while active is a guarded no-op on the nitro fields. -/
theorem claim_activateNitro_idempotent_on_reachable (p sp fp : Vec3) (evs : List Event)
    (h : (run (Car.mkCar p sp fp) evs).nitroActive = true) :
    ((Car.activateNitro (run (Car.mkCar p sp fp) evs)).nitroTimeLeft =
        (run (Car.mkCar p sp fp) evs).nitroTimeLeft ∧
      (Car.activateNitro (run (Car.mkCar p sp fp) evs)).nitroActive =
        (run (Car.mkCar p sp fp) evs).nitroActive) ∧
    ∀ (input : Input) (now : ℚ),
      (Car.applyControls input now (run (Car.mkCar p sp fp) evs)).nitroActive =
          (run (Car.mkCar p sp fp) evs).nitroActive ∧
        (Car.applyControls input now (run (Car.mkCar p sp fp) evs)).nitroTimeLeft =
          (run (Car.mkCar p sp fp) evs).nitroTimeLeft := by
  have hinv :=
    run_invariant (P := fun s => s.nitroActive = true → s.nitroTimeLeft = Car.NITRO_DURATION)
      step_nitro_invariant evs (Car.mkCar p sp fp)
      (fun h' => by simp [Car.mkCar] at h')
  refine ⟨⟨?_, ?_⟩, fun input now => Car.applyControlsAux_nitro_of_active input now _ h⟩
  · rw [Car.activateNitro_nitroTimeLeft, hinv h]
  · rw [Car.activateNitro_nitroActive, h]

/-- Witness for C8 (amended): after activating nitro through `applyControls`,
a direct second `activateNitro` call leaves the countdown and flag unchanged. -/
theorem claim_activateNitro_idempotent_on_reachable_witness :
    (Car.activateNitro
        (run farCar [.applyControls ⟨false, false, false, false, true⟩ 0])).nitroTimeLeft =
      (run farCar [.applyControls ⟨false, false, false, false, true⟩ 0]).nitroTimeLeft := by
  refine (claim_activateNitro_idempotent_on_reachable ⟨0, 1, 0⟩ ⟨100, 0, 0⟩ ⟨0, 0, 200⟩
    [.applyControls ⟨false, false, false, false, true⟩ 0] ?_).1.1
  norm_num [run, List.foldl, step, farCar, Car.mkCar, Car.applyControls, Car.applyControlsAux,
    Car.activateNitro, Car.startRace, distSq, Car.CHECKPOINT_RADIUS, Car.ACCELERATION_FORCE,
    Car.BRAKING_FORCE, Car.STEERING_FORCE, Car.NITRO_MULTIPLIER]

end VibeRacing
